import Mathlib

/-!
Verification of the auto_car control core: a shallow embedding of
`src/modules/movement.py` (MovementController, its watchdog) and
`src/modules/camera.py` (ServoControl, CameraController), with theorems
settling the specification claims about them.

Numeric values (timestamps, speeds, angles) are modelled as rationals;
Python integer floor division `//` is `Int.fdiv`.
-/

namespace AutoCar

/-- The drive primitives of the LOBOROBOT motor-driver capability that
`MovementController` issues (`t_up`, `t_down`, `turnLeft`, `turnRight`,
`t_stop`), each carrying the speed percentage (where applicable) and the
duration hint `t_time`. -/
inductive MotorCmd where
  | t_up (speed_percent t_time : ℚ)
  | t_down (speed_percent t_time : ℚ)
  | turnLeft (speed_percent t_time : ℚ)
  | turnRight (speed_percent t_time : ℚ)
  | t_stop (t_time : ℚ)
deriving DecidableEq, Repr

/-- The MotionState owned by `MovementController` (movement.py lines 30-31, 43):
`current_direction`, `current_speed`, and the watchdog's `last_command_time`. -/
structure MovementController where
  current_direction : String
  current_speed : ℚ
  last_command_time : ℚ
deriving DecidableEq, Repr

/-- `MovementController.__init__` (movement.py lines 24-45): direction `stop`,
speed 0, `last_command_time` set to the construction time `t0`. -/
def MovementController.init (t0 : ℚ) : MovementController :=
  { current_direction := "stop", current_speed := 0, last_command_time := t0 }

/-- `_set_motors_forward` (movement.py lines 84-92): issues `t_up(speed, 0.1)`
when hardware is available, otherwise only logs. -/
def set_motors_forward (hw : Bool) (speed_percent : ℚ) : List MotorCmd :=
  if hw then [MotorCmd.t_up speed_percent (1/10)] else []

/-- `_set_motors_backward` (movement.py lines 94-100). -/
def set_motors_backward (hw : Bool) (speed_percent : ℚ) : List MotorCmd :=
  if hw then [MotorCmd.t_down speed_percent (1/10)] else []

/-- `_set_motors_left` (movement.py lines 102-108). -/
def set_motors_left (hw : Bool) (speed_percent : ℚ) : List MotorCmd :=
  if hw then [MotorCmd.turnLeft speed_percent (1/10)] else []

/-- `_set_motors_right` (movement.py lines 110-116). -/
def set_motors_right (hw : Bool) (speed_percent : ℚ) : List MotorCmd :=
  if hw then [MotorCmd.turnRight speed_percent (1/10)] else []

/-- `_set_motors_stop` (movement.py lines 118-124): issues `t_stop(0.1)` when
hardware is available. -/
def set_motors_stop (hw : Bool) : List MotorCmd :=
  if hw then [MotorCmd.t_stop (1/10)] else []

/-- `MovementController.move` (movement.py lines 47-82), at wall-clock time
`now`.  Mirrors the source's statement order faithfully: `last_command_time`,
`current_direction` and `current_speed` are all assigned *before* the direction
token is dispatched, so even the `else` (invalid-direction) branch, which
returns `False`, keeps those assignments.  Result: the post state, the returned
success flag, and the drive primitives issued. -/
def move (hw : Bool) (c : MovementController) (now : ℚ)
    (direction : String) (speed_percent : ℚ) :
    MovementController × Bool × List MotorCmd :=
  let c1 : MovementController :=
    { current_direction := direction, current_speed := speed_percent,
      last_command_time := now }
  if direction = "forward" then (c1, true, set_motors_forward hw speed_percent)
  else if direction = "backward" then (c1, true, set_motors_backward hw speed_percent)
  else if direction = "left" then (c1, true, set_motors_left hw speed_percent)
  else if direction = "right" then (c1, true, set_motors_right hw speed_percent)
  else if direction = "stop" then (c1, true, set_motors_stop hw)
  else (c1, false, [])

/-- One tick of `MovementController._watchdog` (movement.py lines 126-132) at
wall-clock time `now`: when more than 5 seconds have elapsed since
`last_command_time` it calls `_set_motors_stop()`; it assigns no field of the
controller in either branch.  Result: the post state and the drive primitives
issued. -/
def watchdogTick (hw : Bool) (c : MovementController) (now : ℚ) :
    MovementController × List MotorCmd :=
  if now - c.last_command_time > 5 then (c, set_motors_stop hw) else (c, [])

/-- The five direction tokens `move` recognises. -/
def validDirections : List String := ["forward", "backward", "left", "right", "stop"]

/-! ## Camera module: `ServoControl` (camera.py lines 30-70) -/

/-- The AngleState owned by `ServoControl` (camera.py lines 34-36), with its
documented invariant `0 ≤ pan ≤ 180`, `-5 ≤ tilt ≤ 30`. -/
structure ServoControl where
  pan : ℚ
  tilt : ℚ
deriving DecidableEq, Repr

/-- `ServoControl.__init__` (camera.py lines 34-36): `pan = 90`, `tilt = -5`. -/
def ServoControl.init : ServoControl := { pan := 90, tilt := -5 }

/-- `ServoControl.calculate_servo_angles` (camera.py lines 38-70): pixel error
against the integer frame centre (`//` is floor division, `Int.fdiv`), a
proportional adjustment with gain divisor 75, negative feedback, and clamping
to `pan ∈ [0,180]`, `tilt ∈ [-5,30]`.  The clamped angles are both stored back
into the state and returned. -/
def calculate_servo_angles (s : ServoControl)
    (object_center_x object_center_y frame_width frame_height : ℤ) :
    ServoControl × ℚ × ℚ :=
  let error_pan : ℤ := object_center_x - Int.fdiv frame_width 2
  let error_tilt : ℤ := object_center_y - Int.fdiv frame_height 2
  let pan_adjustment : ℚ := (error_pan : ℚ) / 75
  let tilt_adjustment : ℚ := (error_tilt : ℚ) / 75
  let new_pan : ℚ := s.pan - pan_adjustment
  let new_tilt : ℚ := s.tilt - tilt_adjustment
  let new_pan := max 0 (min new_pan 180)
  let new_tilt := max (-5) (min new_tilt 30)
  ({ pan := new_pan, tilt := new_tilt }, new_pan, new_tilt)

/-! ## Camera module: `CameraController` (camera.py lines 72-360) -/

/-- A frame buffer: a `height × width` grid of RGB pixels, as produced by
`np.zeros((resolution[1], resolution[0], 3))` and the capture/generation
cycle. -/
def Frame : Type := List (List (ℕ × ℕ × ℕ))

instance : DecidableEq Frame := by unfold Frame; infer_instance

/-- The all-zero frame `np.zeros((h, w, 3), dtype=np.uint8)` written by
`_init_simulation_camera` (camera.py line 129). -/
def blankFrame (w h : ℕ) : Frame :=
  List.replicate h (List.replicate w (0, 0, 0))

/-- The state of `CameraController` relevant to its claims (camera.py lines
77-122): resolution, streaming flag, the shared frame buffer (`None` until
something publishes into it), the embedded `ServoControl`, and the mirrored
`pan_angle` / `tilt_angle` fields. -/
structure CameraController where
  resolution : ℕ × ℕ
  is_streaming : Bool
  frame_buffer : Option Frame
  servo_control : ServoControl
  pan_angle : ℚ
  tilt_angle : ℚ
deriving DecidableEq

/-- `CameraController.__init__` (camera.py lines 77-122): resolution 640×480,
not streaming, `frame_buffer = None`, angles taken from `ServoControl`'s
initial values.  With a hardware backend (`hw = true`) the constructor re-sets
the gimbal to those same initial angles and leaves `frame_buffer` as `None`;
without one it runs `_init_simulation_camera` (lines 124-133), which fills
`frame_buffer` with a blank zeros frame before any generation cycle runs. -/
def CameraController.init (hw : Bool) : CameraController :=
  { resolution := (640, 480)
    is_streaming := false
    frame_buffer := if hw then none else some (blankFrame 640 480)
    servo_control := ServoControl.init
    pan_angle := ServoControl.init.pan
    tilt_angle := ServoControl.init.tilt }

/-- `CameraController.set_gimbal_angle` (camera.py lines 182-245), with
hardware availability `hw`.  Validation order follows the source: axis
membership first, then the per-axis range check, each returning `False` before
any state is touched.  On success the in-memory angles (both the mirror field
and the `ServoControl` field) are updated; with hardware present the logical
angle is mapped to a physical servo angle (pan: identity on channel 0; tilt:
`((angle - (-5)) / 35) * 35 + 85` on channel 1) and issued to
`robot.set_servo_angle`.  Result: post state, success flag, and the
`(channel, servo_angle)` command issued to the hardware, if any. -/
def set_gimbal_angle (hw : Bool) (c : CameraController)
    (control : String) (angle : ℚ) :
    CameraController × Bool × Option (ℕ × ℚ) :=
  if ¬ (control = "pan" ∨ control = "tilt") then (c, false, none)
  else if control = "pan" ∧ ¬ (0 ≤ angle ∧ angle ≤ 180) then (c, false, none)
  else if control = "tilt" ∧ ¬ ((-5) ≤ angle ∧ angle ≤ 30) then (c, false, none)
  else
    let c1 : CameraController :=
      if control = "pan" then
        { c with pan_angle := angle,
                 servo_control := { c.servo_control with pan := angle } }
      else
        { c with tilt_angle := angle,
                 servo_control := { c.servo_control with tilt := angle } }
    if hw then
      let channel : ℕ := if control = "pan" then 0 else 1
      let servo_angle : ℚ :=
        if control = "pan" then angle else ((angle - (-5)) / 35) * 35 + 85
      (c1, true, some (channel, servo_angle))
    else
      (c1, true, none)

/-- `CameraController.get_current_frame` (camera.py lines 326-328): returns
the frame buffer as is. -/
def get_current_frame (c : CameraController) : Option Frame :=
  c.frame_buffer

/-- The state transition of one `calculate_servo_angles` call (the stateful
integrator: each call's output becomes the next call's base). -/
def track_step (x y w h : ℤ) (s : ServoControl) : ServoControl :=
  (calculate_servo_angles s x y w h).1

/-- The `pan_adjustment` computed inside `calculate_servo_angles`
(camera.py lines 52, 56): `(object_center_x - frame_width // 2) / 75`. -/
def pan_adjustment (x w : ℤ) : ℚ := ((x - Int.fdiv w 2 : ℤ) : ℚ) / 75

/-- The `tilt_adjustment` computed inside `calculate_servo_angles`
(camera.py lines 53, 57): `(object_center_y - frame_height // 2) / 75`. -/
def tilt_adjustment (y h : ℤ) : ℚ := ((y - Int.fdiv h 2 : ℤ) : ℚ) / 75

/-- One clamped proportional step on a single axis: subtract the adjustment,
then clamp into `[lo, hi]` exactly as camera.py lines 59-64 do
(`max lo (min (p - δ) hi)`). -/
def clampStep (lo hi δ : ℚ) (p : ℚ) : ℚ := max lo (min (p - δ) hi)

/-! ## Helper lemmas -/

/-- Every `move` call, accepted or rejected, stores `now` into
`last_command_time` (the assignment happens before the direction dispatch). -/
theorem move_last_command_time (hw : Bool) (c : MovementController) (now : ℚ)
    (d : String) (s : ℚ) : (move hw c now d s).1.last_command_time = now := by
  unfold move
  split_ifs <;> rfl

/-- The watchdog tick returns the controller state unchanged in both of its
branches (it only issues drive primitives). -/
theorem watchdogTick_state (hw : Bool) (c : MovementController) (now : ℚ) :
    (watchdogTick hw c now).1 = c := by
  unfold watchdogTick
  split <;> rfl

/-! ## Claims about the movement controller -/

/-- Claim C1, counterexample: after an accepted `move("forward", 50)` at time 0
with no further `move` call, a watchdog tick at time 6 (elapsed 6 > 5 seconds)
does not force the state to `direction = "stop"` and `speed = 0`: the state
keeps `direction = "forward"` and `speed = 50`. -/
theorem C1_counterexample :
    6 - (move false (MovementController.init 0) 0 "forward" 50).1.last_command_time > 5 ∧
    ¬ ((watchdogTick false (move false (MovementController.init 0) 0 "forward" 50).1 6).1.current_direction = "stop" ∧
       (watchdogTick false (move false (MovementController.init 0) 0 "forward" 50).1 6).1.current_speed = 0) := by
  constructor
  · rw [move_last_command_time]; norm_num
  · rw [watchdogTick_state]
    simp [move]

/-- Claim C1 (amended): if after a `move` call no further `move` occurs for
more than 5 seconds, the watchdog tick issues the stop drive primitive
(`t_stop(0.1)` when hardware is present) but leaves the whole MotionState —
`current_direction`, `current_speed`, `last_command_time` — unchanged; a
watchdog tick within 5 seconds of a `move` call issues nothing, so a new
`move` call within the deadline prevents the forced stop. -/
theorem C1_watchdog_amended (hw : Bool) (c : MovementController) (now t : ℚ)
    (d : String) (s : ℚ) :
    (now - c.last_command_time > 5 →
      watchdogTick hw c now = (c, set_motors_stop hw) ∧
      set_motors_stop true = [MotorCmd.t_stop (1/10)]) ∧
    (now - t ≤ 5 →
      (watchdogTick hw (move hw c t d s).1 now).2 = []) := by
  constructor
  · intro hdl
    exact ⟨by simp [watchdogTick, hdl], rfl⟩
  · intro hin
    have hlt : ¬ (now - (move hw c t d s).1.last_command_time > 5) := by
      rw [move_last_command_time]; linarith
    simp [watchdogTick, hlt]

/-- Claim C1 witness: the amended watchdog behaviour at concrete inputs —
deadline exceeded at time 6 for a controller whose last command was at time 0,
and no forced stop at time 6 after a `move` at time 3. -/
theorem C1_watchdog_amended_witness :
    watchdogTick true (MovementController.init 0) 6 =
      (MovementController.init 0, set_motors_stop true) ∧
    set_motors_stop true = [MotorCmd.t_stop (1/10)] ∧
    (watchdogTick true (move true (MovementController.init 0) 3 "forward" 50).1 6).2 = [] := by
  refine ⟨?_, ?_, ?_⟩
  · exact ((C1_watchdog_amended true (MovementController.init 0) 6 3 "forward" 50).1
      (by norm_num [MovementController.init])).1
  · exact ((C1_watchdog_amended true (MovementController.init 0) 6 3 "forward" 50).1
      (by norm_num [MovementController.init])).2
  · exact (C1_watchdog_amended true (MovementController.init 0) 6 3 "forward" 50).2
      (by norm_num)

/-- Claim C2, counterexample: `move` with the unrecognized direction
`"diagonal"` returns `false`, yet the MotionState is not left unchanged — the
rejected token, the speed and the new timestamp are all stored before the
rejection. -/
theorem C2_counterexample :
    (move false (MovementController.init 0) 1 "diagonal" 50).2.1 = false ∧
    (move false (MovementController.init 0) 1 "diagonal" 50).1 ≠
      MovementController.init 0 := by
  constructor
  · simp [move]
  · simp [move, MovementController.init]

/-- Claim C2 (amended): for every unrecognized direction token `d` and every
speed `s`, `move(d, s)` returns `false` and issues no drive primitive, but it
mutates the MotionState before rejecting: `current_direction := d`,
`current_speed := s` and `last_command_time := now` are all assigned. -/
theorem C2_invalid_direction_amended (hw : Bool) (c : MovementController)
    (now : ℚ) (d : String) (s : ℚ) (hd : d ∉ validDirections) :
    move hw c now d s =
      ({ current_direction := d, current_speed := s, last_command_time := now },
       false, []) := by
  simp only [validDirections, List.mem_cons, List.not_mem_nil, or_false,
    not_or] at hd
  obtain ⟨h1, h2, h3, h4, h5⟩ := hd
  simp [move, h1, h2, h3, h4, h5]

/-- Claim C2 witness: the amended behaviour at the concrete rejected call
`move("diagonal", 50)` at time 1. -/
theorem C2_invalid_direction_amended_witness :
    move false (MovementController.init 0) 1 "diagonal" 50 =
      ({ current_direction := "diagonal", current_speed := 50,
         last_command_time := 1 }, false, []) :=
  C2_invalid_direction_amended false (MovementController.init 0) 1 "diagonal" 50
    (by decide)

/-- Claim C5: a watchdog tick in which the 5-second deadline is exceeded
issues the forced stop yet leaves `last_command_time` exactly as it was (the
stop bypasses the `move` entry point, which is the only writer of that
field). -/
theorem C5_watchdog_preserves_timestamp (hw : Bool) (c : MovementController)
    (now : ℚ) (h : now - c.last_command_time > 5) :
    (watchdogTick hw c now).2 = set_motors_stop hw ∧
    (watchdogTick hw c now).1.last_command_time = c.last_command_time := by
  constructor <;> simp [watchdogTick, h]

/-- Claim C5 witness: the deadline-exceeded tick at time 6 on a freshly
constructed controller (last command at time 0). -/
theorem C5_watchdog_preserves_timestamp_witness :
    (watchdogTick true (MovementController.init 0) 6).2 = set_motors_stop true ∧
    (watchdogTick true (MovementController.init 0) 6).1.last_command_time =
      (MovementController.init 0).last_command_time :=
  C5_watchdog_preserves_timestamp true (MovementController.init 0) 6
    (by norm_num [MovementController.init])

/-- Claim C10: `move` never validates `speed_percent`: for every recognized
direction `d` and every speed `s` (negative and above 100 included),
`move(d, s)` returns `true`, records `last_command_time = now`, and stores
`current_speed = s` and `current_direction = d` verbatim. -/
theorem C10_no_speed_validation (hw : Bool) (c : MovementController)
    (now : ℚ) (d : String) (s : ℚ) (hd : d ∈ validDirections) :
    (move hw c now d s).2.1 = true ∧
    (move hw c now d s).1.last_command_time = now ∧
    (move hw c now d s).1.current_speed = s ∧
    (move hw c now d s).1.current_direction = d := by
  fin_cases hd <;> simp [move]

/-- Claim C10 witness: the out-of-range speed `-20` is accepted verbatim with
direction `"forward"`. -/
theorem C10_no_speed_validation_witness :
    (move false (MovementController.init 0) 2 "forward" (-20)).2.1 = true ∧
    (move false (MovementController.init 0) 2 "forward" (-20)).1.last_command_time = 2 ∧
    (move false (MovementController.init 0) 2 "forward" (-20)).1.current_speed = -20 ∧
    (move false (MovementController.init 0) 2 "forward" (-20)).1.current_direction = "forward" :=
  C10_no_speed_validation false (MovementController.init 0) 2 "forward" (-20)
    (by decide)

/-! ## Claims about the camera controller -/

/-- Claim C3: `set_gimbal_angle` rejects an out-of-range pan (outside
`[0,180]`), an out-of-range tilt (outside `[-5,30]`), and any unknown axis
name, returning `false`, leaving the whole controller state (the mirror angles
and the `ServoControl` angles) unchanged, and issuing no hardware command. -/
theorem C3_reject_invalid_gimbal (hw : Bool) (c : CameraController)
    (control : String) (angle : ℚ)
    (h : (control = "pan" ∧ ¬ (0 ≤ angle ∧ angle ≤ 180)) ∨
         (control = "tilt" ∧ ¬ ((-5) ≤ angle ∧ angle ≤ 30)) ∨
         (¬ (control = "pan" ∨ control = "tilt"))) :
    set_gimbal_angle hw c control angle = (c, false, none) := by
  rcases h with ⟨hc, hr⟩ | ⟨hc, hr⟩ | hc
  · subst hc; simp [set_gimbal_angle, hr]
  · subst hc; simp [set_gimbal_angle, hr]
  · simp [set_gimbal_angle, hc]

/-- Claim C3 witness: `pan=181`, `pan=-1`, `tilt=31`, `tilt=-6` and the
unknown axis `"roll"` are all rejected without mutation on the freshly
constructed simulation controller. -/
theorem C3_reject_invalid_gimbal_witness :
    set_gimbal_angle false (CameraController.init false) "pan" 181 =
      (CameraController.init false, false, none) ∧
    set_gimbal_angle false (CameraController.init false) "pan" (-1) =
      (CameraController.init false, false, none) ∧
    set_gimbal_angle false (CameraController.init false) "tilt" 31 =
      (CameraController.init false, false, none) ∧
    set_gimbal_angle false (CameraController.init false) "tilt" (-6) =
      (CameraController.init false, false, none) ∧
    set_gimbal_angle false (CameraController.init false) "roll" 90 =
      (CameraController.init false, false, none) :=
  ⟨C3_reject_invalid_gimbal false (CameraController.init false) "pan" 181
      (Or.inl ⟨rfl, by norm_num⟩),
   C3_reject_invalid_gimbal false (CameraController.init false) "pan" (-1)
      (Or.inl ⟨rfl, by norm_num⟩),
   C3_reject_invalid_gimbal false (CameraController.init false) "tilt" 31
      (Or.inr (Or.inl ⟨rfl, by norm_num⟩)),
   C3_reject_invalid_gimbal false (CameraController.init false) "tilt" (-6)
      (Or.inr (Or.inl ⟨rfl, by norm_num⟩)),
   C3_reject_invalid_gimbal false (CameraController.init false) "roll" 90
      (Or.inr (Or.inr (by simp)))⟩

/-- Claim C4: for every input `(x, y, w, h)` and every starting state
satisfying the AngleState invariant, `calculate_servo_angles` returns a pair
with `0 ≤ pan ≤ 180` and `-5 ≤ tilt ≤ 30`, and stores exactly the returned
pair back into the state, so the invariant is preserved by every call and no
call fails. -/
theorem C4_angle_invariant (s : ServoControl) (x y w h : ℤ)
    (hpan : 0 ≤ s.pan ∧ s.pan ≤ 180) (htilt : (-5) ≤ s.tilt ∧ s.tilt ≤ 30) :
    (0 ≤ (calculate_servo_angles s x y w h).2.1 ∧
     (calculate_servo_angles s x y w h).2.1 ≤ 180) ∧
    ((-5) ≤ (calculate_servo_angles s x y w h).2.2 ∧
     (calculate_servo_angles s x y w h).2.2 ≤ 30) ∧
    (calculate_servo_angles s x y w h).1.pan = (calculate_servo_angles s x y w h).2.1 ∧
    (calculate_servo_angles s x y w h).1.tilt = (calculate_servo_angles s x y w h).2.2 := by
  exact ⟨⟨le_max_left _ _, max_le (by norm_num) (min_le_right _ _)⟩,
    ⟨le_max_left _ _, max_le (by norm_num) (min_le_right _ _)⟩, rfl, rfl⟩

/-- Claim C4 witness: the invariant-preservation conclusion at the concrete
call on the initial state with an out-of-frame coordinate `x = 700 > 640`. -/
theorem C4_angle_invariant_witness :
    (0 ≤ (calculate_servo_angles ServoControl.init 700 (-50) 640 480).2.1 ∧
     (calculate_servo_angles ServoControl.init 700 (-50) 640 480).2.1 ≤ 180) ∧
    ((-5) ≤ (calculate_servo_angles ServoControl.init 700 (-50) 640 480).2.2 ∧
     (calculate_servo_angles ServoControl.init 700 (-50) 640 480).2.2 ≤ 30) ∧
    (calculate_servo_angles ServoControl.init 700 (-50) 640 480).1.pan =
      (calculate_servo_angles ServoControl.init 700 (-50) 640 480).2.1 ∧
    (calculate_servo_angles ServoControl.init 700 (-50) 640 480).1.tilt =
      (calculate_servo_angles ServoControl.init 700 (-50) 640 480).2.2 :=
  C4_angle_invariant ServoControl.init 700 (-50) 640 480
    (by norm_num [ServoControl.init]) (by norm_num [ServoControl.init])

/-- Claim C6: from the initial state `(pan, tilt) = (90, -5)`, the call
`calculate_servo_angles(480, 360, 640, 480)` computes `error_pan = 160` and
`error_tilt = 120`, adjustments `160/75` and `120/75`, and returns
`pan = 90 - 160/75 = 1318/15` (≈ 87.87) and `tilt = -5`: the raw
`-5 - 120/75 = -6.6` is clamped at the tilt floor `-5`. -/
theorem C6_end_to_end_scenario :
    (480 - Int.fdiv 640 2 = (160 : ℤ)) ∧
    (360 - Int.fdiv 480 2 = (120 : ℤ)) ∧
    ((90 : ℚ) - 160/75 = 1318/15) ∧
    ((-5 : ℚ) - 120/75 = -33/5) ∧
    ((-33 : ℚ)/5 < -5) ∧
    calculate_servo_angles ServoControl.init 480 360 640 480 =
      ({ pan := 1318/15, tilt := -5 }, 1318/15, -5) := by
  refine ⟨by decide, by decide, by norm_num, by norm_num, by norm_num, ?_⟩
  unfold calculate_servo_angles ServoControl.init
  rw [show Int.fdiv 640 2 = 320 from by decide, show Int.fdiv 480 2 = 240 from by decide]
  norm_num [max_def, min_def]

/-- Claim C8: in the hardware path of `set_gimbal_angle`, an in-range tilt
angle `a` is remapped to the physical servo angle
`((a - (-5)) / 35) * 35 + 85 = a + 90` exactly (logical `[-5,30]` onto
physical `[85,120]`) on channel 1, while an in-range pan angle is forwarded
identically on channel 0. -/
theorem C8_physical_servo_mapping (c : CameraController) (a b : ℚ)
    (ha : (-5) ≤ a ∧ a ≤ 30) (hb : 0 ≤ b ∧ b ≤ 180) :
    (set_gimbal_angle true c "tilt" a).2.2 = some (1, ((a - (-5)) / 35) * 35 + 85) ∧
    ((a - (-5)) / 35) * 35 + 85 = a + 90 ∧
    (85 ≤ a + 90 ∧ a + 90 ≤ 120) ∧
    (set_gimbal_angle true c "pan" b).2.2 = some (0, b) := by
  refine ⟨?_, by ring, ⟨by linarith [ha.1], by linarith [ha.2]⟩, ?_⟩
  · simp [set_gimbal_angle, ha.1, ha.2]
  · simp [set_gimbal_angle, hb.1, hb.2]

/-- Claim C8 witness: the physical mapping at the concrete angles
`tilt = 30` (physical 120, channel 1) and `pan = 90` (identity, channel 0). -/
theorem C8_physical_servo_mapping_witness :
    (set_gimbal_angle true (CameraController.init false) "tilt" 30).2.2 =
      some (1, (((30 : ℚ) - (-5)) / 35) * 35 + 85) ∧
    (((30 : ℚ) - (-5)) / 35) * 35 + 85 = 30 + 90 ∧
    (85 ≤ (30 : ℚ) + 90 ∧ (30 : ℚ) + 90 ≤ 120) ∧
    (set_gimbal_angle true (CameraController.init false) "pan" 90).2.2 =
      some (0, 90) :=
  C8_physical_servo_mapping (CameraController.init false) 30 90
    (by norm_num) (by norm_num)

/-- Claim C9, counterexample: on a freshly constructed simulation controller
(no streaming started, no generation cycle run), `get_current_frame` does not
return `None` — the constructor's `_init_simulation_camera` has already filled
the buffer with a blank frame. -/
theorem C9_counterexample :
    get_current_frame (CameraController.init false) ≠ none := by
  simp [get_current_frame, CameraController.init]

/-- Claim C9 (amended): with a hardware backend, `get_current_frame` returns
`None` on a freshly constructed controller, before the first capture cycle
publishes a frame; in simulation mode the constructor pre-fills the frame
buffer with a blank zeros frame, so `get_current_frame` returns that blank
frame rather than `None`. -/
theorem C9_initial_frame_amended :
    get_current_frame (CameraController.init true) = none ∧
    get_current_frame (CameraController.init false) = some (blankFrame 640 480) :=
  ⟨rfl, rfl⟩

/-! ## Iterated tracking: lemmas towards the saturation claim -/

/-- One `calculate_servo_angles` call acts on the pan component as a single
clamped proportional step with the pan adjustment. -/
theorem track_step_pan (x y w h : ℤ) (s : ServoControl) :
    (track_step x y w h s).pan = clampStep 0 180 (pan_adjustment x w) s.pan := rfl

/-- One `calculate_servo_angles` call acts on the tilt component as a single
clamped proportional step with the tilt adjustment. -/
theorem track_step_tilt (x y w h : ℤ) (s : ServoControl) :
    (track_step x y w h s).tilt = clampStep (-5) 30 (tilt_adjustment y h) s.tilt := rfl

/-- The pan component of the iterated tracking step is the iterated clamped
pan step (pan evolves independently of tilt). -/
theorem track_step_iter_pan (x y w h : ℤ) (s : ServoControl) (n : ℕ) :
    ((track_step x y w h)^[n] s).pan =
      (clampStep 0 180 (pan_adjustment x w))^[n] s.pan := by
  induction n with
  | zero => rfl
  | succ n ih =>
      rw [Function.iterate_succ_apply', Function.iterate_succ_apply',
        track_step_pan, ih]

/-- The tilt component of the iterated tracking step is the iterated clamped
tilt step. -/
theorem track_step_iter_tilt (x y w h : ℤ) (s : ServoControl) (n : ℕ) :
    ((track_step x y w h)^[n] s).tilt =
      (clampStep (-5) 30 (tilt_adjustment y h))^[n] s.tilt := by
  induction n with
  | zero => rfl
  | succ n ih =>
      rw [Function.iterate_succ_apply', Function.iterate_succ_apply',
        track_step_tilt, ih]

/-- Closed form of the iterated clamped step for a positive adjustment:
starting inside `[lo, hi]`, after `n` steps the value is
`max lo (p - n * δ)`. -/
theorem clampStep_iterate_pos (lo hi δ p : ℚ) (hlh : lo ≤ hi) (hδ : 0 < δ)
    (hp1 : lo ≤ p) (hp2 : p ≤ hi) (n : ℕ) :
    (clampStep lo hi δ)^[n] p = max lo (p - n * δ) := by
  induction n with
  | zero => simp [max_eq_right hp1]
  | succ n ih =>
      have hnδ : 0 ≤ (n : ℚ) * δ := by positivity
      rw [Function.iterate_succ_apply', ih]
      unfold clampStep
      rw [min_eq_left (by linarith [max_le hlh (by linarith : p - (n : ℚ) * δ ≤ hi)] :
        max lo (p - (n : ℚ) * δ) - δ ≤ hi)]
      rw [← max_sub_sub_right, ← max_assoc,
        max_eq_left (by linarith : lo - δ ≤ lo)]
      congr 1
      push_cast
      ring

/-- Closed form of the iterated clamped step for a negative adjustment:
starting inside `[lo, hi]`, after `n` steps the value is
`min hi (p - n * δ)`. -/
theorem clampStep_iterate_neg (lo hi δ p : ℚ) (hlh : lo ≤ hi) (hδ : δ < 0)
    (hp1 : lo ≤ p) (hp2 : p ≤ hi) (n : ℕ) :
    (clampStep lo hi δ)^[n] p = min hi (p - n * δ) := by
  induction n with
  | zero => simp [min_eq_right hp2]
  | succ n ih =>
      have hn0 : (0 : ℚ) ≤ (n : ℚ) := Nat.cast_nonneg n
      have hnδ : (n : ℚ) * δ ≤ 0 := by nlinarith
      rw [Function.iterate_succ_apply', ih]
      unfold clampStep
      rw [← min_sub_sub_right, min_assoc, min_comm (p - (n : ℚ) * δ - δ) hi,
        ← min_assoc, min_eq_right (by linarith : hi ≤ hi - δ)]
      rw [max_eq_right (le_min hlh (by linarith : lo ≤ p - (n : ℚ) * δ - δ))]
      congr 1
      push_cast
      ring

/-- With a positive adjustment, the iterated clamped step from a value in
`[lo, hi]` is monotonically decreasing, strictly so while above `lo`, and
after finitely many steps reaches `lo` and stays pinned there. -/
theorem clampStep_saturates_pos (lo hi δ p : ℚ) (hlh : lo ≤ hi) (hδ : 0 < δ)
    (hp1 : lo ≤ p) (hp2 : p ≤ hi) :
    (∀ n : ℕ, (clampStep lo hi δ)^[n+1] p ≤ (clampStep lo hi δ)^[n] p) ∧
    (∀ n : ℕ, lo < (clampStep lo hi δ)^[n] p →
      (clampStep lo hi δ)^[n+1] p < (clampStep lo hi δ)^[n] p) ∧
    (∃ N : ℕ, ∀ n : ℕ, N ≤ n → (clampStep lo hi δ)^[n] p = lo) := by
  have key : ∀ n : ℕ, (clampStep lo hi δ)^[n] p = max lo (p - n * δ) :=
    clampStep_iterate_pos lo hi δ p hlh hδ hp1 hp2
  refine ⟨?_, ?_, ?_⟩
  · intro n
    rw [key n, key (n + 1)]
    refine max_le_max le_rfl ?_
    push_cast
    nlinarith
  · intro n hpos
    rw [key n] at hpos ⊢
    rw [key (n + 1)]
    have h1 : lo < p - n * δ := by
      rcases lt_max_iff.mp hpos with hc | hc
      · exact absurd hc (lt_irrefl lo)
      · exact hc
    rw [max_eq_right h1.le]
    refine max_lt h1 ?_
    push_cast
    nlinarith
  · refine ⟨⌈(p - lo) / δ⌉₊, fun n hn => ?_⟩
    rw [key n]
    refine max_eq_left ?_
    have h1 : (p - lo) / δ ≤ (n : ℚ) :=
      le_trans (Nat.le_ceil _) (by exact_mod_cast hn)
    have h2 : p - lo ≤ (n : ℚ) * δ := (div_le_iff₀ hδ).mp h1
    linarith

/-- With a negative adjustment, the iterated clamped step from a value in
`[lo, hi]` is monotonically increasing, strictly so while below `hi`, and
after finitely many steps reaches `hi` and stays pinned there. -/
theorem clampStep_saturates_neg (lo hi δ p : ℚ) (hlh : lo ≤ hi) (hδ : δ < 0)
    (hp1 : lo ≤ p) (hp2 : p ≤ hi) :
    (∀ n : ℕ, (clampStep lo hi δ)^[n] p ≤ (clampStep lo hi δ)^[n+1] p) ∧
    (∀ n : ℕ, (clampStep lo hi δ)^[n] p < hi →
      (clampStep lo hi δ)^[n] p < (clampStep lo hi δ)^[n+1] p) ∧
    (∃ N : ℕ, ∀ n : ℕ, N ≤ n → (clampStep lo hi δ)^[n] p = hi) := by
  have key : ∀ n : ℕ, (clampStep lo hi δ)^[n] p = min hi (p - n * δ) :=
    clampStep_iterate_neg lo hi δ p hlh hδ hp1 hp2
  refine ⟨?_, ?_, ?_⟩
  · intro n
    rw [key n, key (n + 1)]
    refine min_le_min le_rfl ?_
    push_cast
    nlinarith
  · intro n hlt
    rw [key n] at hlt ⊢
    rw [key (n + 1)]
    have h1 : p - n * δ < hi := by
      rcases min_lt_iff.mp hlt with hc | hc
      · exact absurd hc (lt_irrefl hi)
      · exact hc
    rw [min_eq_right h1.le]
    refine lt_min h1 ?_
    push_cast
    nlinarith
  · refine ⟨⌈(hi - p) / (-δ)⌉₊, fun n hn => ?_⟩
    rw [key n]
    refine min_eq_left ?_
    have h1 : (hi - p) / (-δ) ≤ (n : ℚ) :=
      le_trans (Nat.le_ceil _) (by exact_mod_cast hn)
    have h2 : hi - p ≤ (n : ℚ) * (-δ) := (div_le_iff₀ (by linarith)).mp h1
    rw [mul_neg] at h2
    linarith

/-- A target right of the integer frame centre gives a positive pan
adjustment. -/
theorem pan_adjustment_pos (x w : ℤ) (hx : 0 < x - Int.fdiv w 2) :
    0 < pan_adjustment x w := by
  unfold pan_adjustment
  exact div_pos (by exact_mod_cast hx) (by norm_num)

/-- A target left of the integer frame centre gives a negative pan
adjustment. -/
theorem pan_adjustment_neg (x w : ℤ) (hx : x - Int.fdiv w 2 < 0) :
    pan_adjustment x w < 0 := by
  unfold pan_adjustment
  exact div_neg_of_neg_of_pos (by exact_mod_cast hx) (by norm_num)

/-- A target below the integer frame centre gives a positive tilt
adjustment. -/
theorem tilt_adjustment_pos (y h : ℤ) (hy : 0 < y - Int.fdiv h 2) :
    0 < tilt_adjustment y h := by
  unfold tilt_adjustment
  exact div_pos (by exact_mod_cast hy) (by norm_num)

/-- A target above the integer frame centre gives a negative tilt
adjustment. -/
theorem tilt_adjustment_neg (y h : ℤ) (hy : y - Int.fdiv h 2 < 0) :
    tilt_adjustment y h < 0 := by
  unfold tilt_adjustment
  exact div_neg_of_neg_of_pos (by exact_mod_cast hy) (by norm_num)

/-- Claim C7: with a fixed input, repeated `calculate_servo_angles` calls
(state threaded through `track_step`) drive each angle monotonically to its
clamp boundary and keep it pinned there: for `x - w//2 > 0` the pan sequence
is decreasing, strictly while above 0, and eventually constantly 0; for
`x - w//2 < 0` it is increasing, strictly while below 180, and eventually
constantly 180; likewise the tilt sequence with boundaries `-5` (for
`y - h//2 > 0`) and `30` (for `y - h//2 < 0`). -/
theorem C7_monotonic_saturation (x y w h : ℤ) (s : ServoControl)
    (hpan1 : 0 ≤ s.pan) (hpan2 : s.pan ≤ 180)
    (htilt1 : (-5) ≤ s.tilt) (htilt2 : s.tilt ≤ 30) :
    (0 < x - Int.fdiv w 2 →
      (∀ n : ℕ, ((track_step x y w h)^[n+1] s).pan ≤ ((track_step x y w h)^[n] s).pan) ∧
      (∀ n : ℕ, 0 < ((track_step x y w h)^[n] s).pan →
        ((track_step x y w h)^[n+1] s).pan < ((track_step x y w h)^[n] s).pan) ∧
      (∃ N : ℕ, ∀ n : ℕ, N ≤ n → ((track_step x y w h)^[n] s).pan = 0)) ∧
    (x - Int.fdiv w 2 < 0 →
      (∀ n : ℕ, ((track_step x y w h)^[n] s).pan ≤ ((track_step x y w h)^[n+1] s).pan) ∧
      (∀ n : ℕ, ((track_step x y w h)^[n] s).pan < 180 →
        ((track_step x y w h)^[n] s).pan < ((track_step x y w h)^[n+1] s).pan) ∧
      (∃ N : ℕ, ∀ n : ℕ, N ≤ n → ((track_step x y w h)^[n] s).pan = 180)) ∧
    (0 < y - Int.fdiv h 2 →
      (∀ n : ℕ, ((track_step x y w h)^[n+1] s).tilt ≤ ((track_step x y w h)^[n] s).tilt) ∧
      (∀ n : ℕ, (-5) < ((track_step x y w h)^[n] s).tilt →
        ((track_step x y w h)^[n+1] s).tilt < ((track_step x y w h)^[n] s).tilt) ∧
      (∃ N : ℕ, ∀ n : ℕ, N ≤ n → ((track_step x y w h)^[n] s).tilt = -5)) ∧
    (y - Int.fdiv h 2 < 0 →
      (∀ n : ℕ, ((track_step x y w h)^[n] s).tilt ≤ ((track_step x y w h)^[n+1] s).tilt) ∧
      (∀ n : ℕ, ((track_step x y w h)^[n] s).tilt < 30 →
        ((track_step x y w h)^[n] s).tilt < ((track_step x y w h)^[n+1] s).tilt) ∧
      (∃ N : ℕ, ∀ n : ℕ, N ≤ n → ((track_step x y w h)^[n] s).tilt = 30)) := by
  simp only [track_step_iter_pan, track_step_iter_tilt]
  refine ⟨fun hx => ?_, fun hx => ?_, fun hy => ?_, fun hy => ?_⟩
  · exact clampStep_saturates_pos 0 180 (pan_adjustment x w) s.pan (by norm_num)
      (pan_adjustment_pos x w hx) hpan1 hpan2
  · exact clampStep_saturates_neg 0 180 (pan_adjustment x w) s.pan (by norm_num)
      (pan_adjustment_neg x w hx) hpan1 hpan2
  · exact clampStep_saturates_pos (-5) 30 (tilt_adjustment y h) s.tilt (by norm_num)
      (tilt_adjustment_pos y h hy) htilt1 htilt2
  · exact clampStep_saturates_neg (-5) 30 (tilt_adjustment y h) s.tilt (by norm_num)
      (tilt_adjustment_neg y h hy) htilt1 htilt2

/-- Claim C7 witness: at the concrete off-centre input `(480, 360)` in a
640×480 frame from the initial state (pan error `160 > 0`), the first tracking
step does not increase pan. -/
theorem C7_monotonic_saturation_witness :
    ((track_step 480 360 640 480)^[1] ServoControl.init).pan ≤
      ((track_step 480 360 640 480)^[0] ServoControl.init).pan :=
  ((C7_monotonic_saturation 480 360 640 480 ServoControl.init
      (by norm_num [ServoControl.init]) (by norm_num [ServoControl.init])
      (by norm_num [ServoControl.init]) (by norm_num [ServoControl.init])).1
    (by decide)).1 0

end AutoCar
